import Mathlib

/-!
Verification of the rgbxmastree LED engine, a shallow embedding of
`src/app/tree.py`.

Conventions of the embedding:
* Python floats are modelled as rationals (`ℚ`); Python ints as `ℤ`
  (task identifiers and loop counters as `ℕ`).
* Python `int(x)` (truncation toward zero) is `pyInt`.
* Python `range(a, b)` and `range(a, b, -1)` are `pyRange` / `pyRangeDown`.
* Python exceptions are modelled by `PyErr` values carried in `Except`
  (or returned alongside the unchanged state where the claim is about
  state preservation); the exception class is the `PyErrKind` field.
* `asyncio` task handles are modelled by task identifiers (`ℕ`); the
  event loop's bookkeeping (fresh ids, the set of cancelled task ids)
  is an explicit `AsyncioLoop` record threaded through the operations.
* The pydantic `Field(..., ge, le)` constraints on `ColorBrightness`
  are the explicit range check in `ColorBrightness.validated`
  (pydantic raises a validation error on out-of-range construction).
-/

/-- Python `int(q)` for a float `q`: truncation toward zero.
For `0 ≤ q` this is the floor `q.num / q.den` (the `Div ℤ` instance here
is Euclidean division, which agrees with floor for a positive
denominator); for `q < 0` we negate, floor, and negate back. -/
def pyInt (q : ℚ) : ℤ :=
  if 0 ≤ q then q.num / (q.den : ℤ) else -((-q).num / (((-q).den : ℤ)))

/-- Python `round(q)`: round half to even. Used only on the
specification side (the spec claims `round(channel*255)`); the source
itself never rounds. -/
def pyRound (q : ℚ) : ℤ :=
  if q - ((q.num / (q.den : ℤ) : ℤ) : ℚ) < 1/2 then q.num / (q.den : ℤ)
  else if (1:ℚ)/2 < q - ((q.num / (q.den : ℤ) : ℤ) : ℚ) then q.num / (q.den : ℤ) + 1
  else if (q.num / (q.den : ℤ)) % 2 = 0 then q.num / (q.den : ℤ)
  else q.num / (q.den : ℤ) + 1

/-- Python `range(a, b)` over ints: `a, a+1, …, b-1` (empty if `b ≤ a`). -/
def pyRange (a b : ℤ) : List ℤ :=
  (List.range (b - a).toNat).map (fun (i : ℕ) => a + (i : ℤ))

/-- Python `range(a, b, -1)` over ints: `a, a-1, …, b+1` (empty if `a ≤ b`). -/
def pyRangeDown (a b : ℤ) : List ℤ :=
  (List.range (a - b).toNat).map (fun (i : ℕ) => a - (i : ℤ))

/-- Python `x or 0` for `x : int | None`: `None` and `0` are falsy. -/
def pyOrZero (o : Option ℤ) : ℤ :=
  match o with
  | some v => if v = 0 then 0 else v
  | none => 0

/-- `MAX_BRIGHTNESS: int = 31` (tree.py line 11). -/
def MAX_BRIGHTNESS : ℤ := 31

/-- `DEFAULT_BRIGHTNESS: float = 0.1` (tree.py line 13). -/
def DEFAULT_BRIGHTNESS : ℚ := 1/10

/-- Python exception classes that appear in the embedded code, plus the
builtin `IndexError` named by the spec (never raised by this code). -/
inductive PyErrKind where
  | valueError
  | indexError
  | validationError
deriving DecidableEq

/-- A raised Python exception: its class and its message. -/
structure PyErr where
  kind : PyErrKind
  message : String
deriving DecidableEq

/-- The pydantic model `ColorBrightness` (tree.py lines 16-22):
byte channels `red,green,blue` and a float `brightness`. -/
structure ColorBrightness where
  red : ℤ
  green : ℤ
  blue : ℤ
  brightness : ℚ
deriving DecidableEq

/-- Constructing a `ColorBrightness(...)` runs the pydantic `Field`
validators `ge=0, le=255` on each channel and `ge=0.0, le=1.0` on
brightness; out-of-range construction raises a validation error. -/
def ColorBrightness.validated (r g b : ℤ) (br : ℚ) : Except PyErr ColorBrightness :=
  if 0 ≤ r ∧ r ≤ 255 ∧ 0 ≤ g ∧ g ≤ 255 ∧ 0 ≤ b ∧ b ≤ 255 ∧ 0 ≤ br ∧ br ≤ 1 then
    .ok { red := r, green := g, blue := b, brightness := br }
  else
    .error { kind := .validationError, message := "validation error for ColorBrightness" }

/-- The `.rgb` triple of an external `colorzero.Color`: three floats,
nominally in `[0,1]` per channel. The color model itself is external. -/
structure RGBf where
  r : ℚ
  g : ℚ
  b : ℚ
deriving DecidableEq

/-- `ColorBrightness.from_color` (tree.py lines 24-35): each channel is
converted by `int(channel * 255)` and the result passed to the
validating constructor; brightness is stored as given. -/
def ColorBrightness.from_color (color : RGBf) (brightness : ℚ) : Except PyErr ColorBrightness :=
  ColorBrightness.validated (pyInt (color.r * 255)) (pyInt (color.g * 255))
    (pyInt (color.b * 255)) brightness

/-- The asyncio event loop's task bookkeeping: the next fresh task id
and the ids whose `.cancel()` has been called. -/
structure AsyncioLoop where
  nextId : ℕ
  cancelled : List ℕ
deriving DecidableEq

/-- A `Light` (tree.py lines 38-47): id, current state, and the two
task-handle attributes. `hue_effect_taskk` is the dynamically created
misspelled attribute assigned at tree.py line 124 (`none` = the
attribute has never been assigned). -/
structure Light where
  id : ℤ
  state : ColorBrightness
  glow_effect_task : Option ℕ
  hue_effect_task : Option ℕ
  hue_effect_taskk : Option (Option ℕ)
deriving DecidableEq

/-- `Light.__init__` (tree.py lines 41-47): default state is
`ColorBrightness(red=0, green=0, blue=0, brightness=1.0)`, no tasks. -/
def Light.init (i : ℤ) : Light :=
  { id := i
    state := { red := 0, green := 0, blue := 0, brightness := 1 }
    glow_effect_task := none
    hue_effect_task := none
    hue_effect_taskk := none }

/-- `Light.set_state` (tree.py lines 49-51): replace the state with
`ColorBrightness.from_color(color, brightness)` (validation may raise). -/
def Light.set_state (l : Light) (color : RGBf) (brightness : ℚ) : Except PyErr Light :=
  (ColorBrightness.from_color color brightness).map (fun cb => { l with state := cb })

/-- `Light.off` (tree.py lines 130-131). -/
def Light.off (l : Light) : Light :=
  { l with state := { red := 0, green := 0, blue := 0, brightness := 0 } }

/-- `Light.stop_glow_effect` (tree.py lines 109-113): if the glow task
handle is set (truthy), cancel it and clear the handle. -/
def Light.stop_glow_effect (loop : AsyncioLoop) (l : Light) : AsyncioLoop × Light :=
  match l.glow_effect_task with
  | some t =>
      ({ loop with cancelled := List.insert t loop.cancelled },
       { l with glow_effect_task := none })
  | none => (loop, l)

/-- `Light.start_glow_effect` (tree.py lines 104-107): stop any ongoing
glow effect, then store the freshly created task in the glow slot. -/
def Light.start_glow_effect (loop : AsyncioLoop) (l : Light) : AsyncioLoop × Light :=
  let p := l.stop_glow_effect loop
  ({ p.1 with nextId := p.1.nextId + 1 },
   { p.2 with glow_effect_task := some p.1.nextId })

/-- `Light.stop_hue_effect` (tree.py lines 120-124): if the hue task
handle is set, cancel it; then assign `None` to the misspelled
attribute `hue_effect_taskk` — `hue_effect_task` itself is not cleared. -/
def Light.stop_hue_effect (loop : AsyncioLoop) (l : Light) : AsyncioLoop × Light :=
  let p : AsyncioLoop × Light :=
    match l.hue_effect_task with
    | some t => ({ loop with cancelled := List.insert t loop.cancelled }, l)
    | none => (loop, l)
  (p.1, { p.2 with hue_effect_taskk := some none })

/-- `Light.start_hue_effect` (tree.py lines 115-118): stop any ongoing
hue effect, then store the freshly created task — the source assigns it
to `self.glow_effect_task`, not to the hue slot. -/
def Light.start_hue_effect (loop : AsyncioLoop) (l : Light) : AsyncioLoop × Light :=
  let p := l.stop_hue_effect loop
  ({ p.1 with nextId := p.1.nextId + 1 },
   { p.2 with glow_effect_task := some p.1.nextId })

/-- The ascending half of one pass of `Light.glow`'s `while True` body
(tree.py lines 57-63): the brightness values
`x / 100 for x in range(int(min_brightness * 100), int(max_brightness * 100))`. -/
def glowUps (min_brightness max_brightness : ℚ) : List ℚ :=
  (pyRange (pyInt (min_brightness * 100)) (pyInt (max_brightness * 100))).map
    (fun (x : ℤ) => (x : ℚ) / 100)

/-- The descending half of one pass of `Light.glow`'s body (tree.py
lines 64-69): `x / 100 for x in range(int(max_brightness * 100),
int(min_brightness * 100), -1)`. -/
def glowDowns (min_brightness max_brightness : ℚ) : List ℚ :=
  (pyRangeDown (pyInt (max_brightness * 100)) (pyInt (min_brightness * 100))).map
    (fun (x : ℤ) => (x : ℚ) / 100)

/-- The brightness values written by one full pass of `Light.glow`'s
`while True` body, in order (tree.py lines 57-69). -/
def glowPassWrites (min_brightness max_brightness : ℚ) : List ℚ :=
  glowUps min_brightness max_brightness ++ glowDowns min_brightness max_brightness

/-- How many times one pass of `Light.glow`'s `while True` body reaches
`await asyncio.sleep(duration / 100)`: exactly one await per written
value (tree.py lines 62-63 and 68-69). -/
def glowPassAwaitCount (min_brightness max_brightness : ℚ) : ℕ :=
  (glowPassWrites min_brightness max_brightness).length

/-- One interpolated channel of a `Light.hue` step (tree.py lines
86-95): `int(start + (end - start) * (step / 100))`. -/
def hueChannel (s e : ℤ) (step : ℕ) : ℤ :=
  pyInt ((s : ℚ) + ((e : ℚ) - (s : ℚ)) * ((step : ℚ) / 100))

/-- One tick of `Light.hue` (tree.py lines 86-101): build
`ColorBrightness(red=r, green=g, blue=b, brightness=self.state.brightness)`
through the validating constructor; this record replaces the state. -/
def hueTick (current : ColorBrightness) (start_color end_color : ℤ × ℤ × ℤ)
    (step : ℕ) : Except PyErr ColorBrightness :=
  ColorBrightness.validated
    (hueChannel start_color.1 end_color.1 step)
    (hueChannel start_color.2.1 end_color.2.1 step)
    (hueChannel start_color.2.2 end_color.2.2 step)
    current.brightness

/-- The shape of a write to `Light.state`: either a whole-record
replacement (`self.state = …`) or an in-place mutation of the
brightness field (`self.state.brightness = …`). -/
inductive WriteOp where
  | replace (v : ColorBrightness)
  | mutateBrightness (b : ℚ)
deriving DecidableEq

/-- Whether a write replaces the whole `ColorBrightness` record. -/
def WriteOp.isReplace : WriteOp → Bool
  | .replace _ => true
  | .mutateBrightness _ => false

/-- Applying a write to the current state. -/
def applyWriteOp : WriteOp → ColorBrightness → ColorBrightness
  | .replace v, _ => v
  | .mutateBrightness b, s => { s with brightness := b }

/-- The write performed by one glow tick (tree.py lines 62 and 68):
`self.state.brightness = b` — a single-field in-place mutation. -/
def glowTickWriteOp (b : ℚ) : WriteOp := .mutateBrightness b

/-- The write performed by one hue tick (tree.py line 101):
`self.state = color_brightness` — a whole-record replacement. -/
def hueTickWriteOp (current : ColorBrightness) (r g b : ℤ) : WriteOp :=
  .replace { red := r, green := g, blue := b, brightness := current.brightness }

/-- The write performed by `set_state` (tree.py line 51): a
whole-record replacement. -/
def setStateWriteOp (v : ColorBrightness) : WriteOp := .replace v

/-- The write performed by `Light.off` (tree.py line 131): a
whole-record replacement. -/
def offWriteOp : WriteOp :=
  .replace { red := 0, green := 0, blue := 0, brightness := 0 }

/-- `LEDValue256` (tree.py lines 138-142): the per-pixel wire values;
`brightness` is `int | None` with default `None`. -/
structure LEDValue256 where
  red : ℤ
  green : ℤ
  blue : ℤ
  brightness : Option ℤ
deriving DecidableEq

/-- `LEDValue256.from_color_brightness` (tree.py lines 156-164): the
brightness byte is `0b11100000 | int(value.brightness * MAX_BRIGHTNESS)`
(Python `|` on ints is two's-complement bitwise or, `Int.lor`); the
channels are copied unchanged. -/
def LEDValue256.from_color_brightness (value : ColorBrightness) : LEDValue256 :=
  { red := value.red
    green := value.green
    blue := value.blue
    brightness := some (Int.lor 224 (pyInt (value.brightness * (MAX_BRIGHTNESS : ℚ)))) }

/-- The byte list built by `LEDTree.spi_transfer` (tree.py lines
214-226): `[0]*4`, then for each pixel in snapshot order
`(p.brightness or 0, p.blue, p.green, p.red)`, then `[0]*5`. -/
def spi_transfer_data (snapshot : List ColorBrightness) : List ℤ :=
  let start_of_frame := List.replicate 4 (0 : ℤ)
  let end_of_frame := List.replicate 5 (0 : ℤ)
  let pixels := snapshot.map LEDValue256.from_color_brightness
  let flattened_pixels :=
    pixels.flatMap (fun p => [pyOrZero p.brightness, p.blue, p.green, p.red])
  start_of_frame ++ flattened_pixels ++ end_of_frame

/-- `LEDTree.spi_transfer` (tree.py lines 214-229): builds the frame
bytes (with no check of the snapshot's length against the tree's pixel
count), raises `ValueError` if the SPI bus is not open, otherwise hands
the bytes to the transport. -/
def spi_transfer (spi_open : Bool) (snapshot : List ColorBrightness) :
    Except PyErr (List ℤ) :=
  if spi_open then .ok (spi_transfer_data snapshot)
  else .error { kind := .valueError, message := "SPI must be opened before setting value" }

/-- The `LEDTree` fields the claims touch: the ordered list of lights.
(The SPI thread, star designation, and default coloring of
`LEDTree.__init__` involve only external collaborators.) -/
structure LEDTree where
  lights : List Light
deriving DecidableEq

/-- The lights created by `LEDTree.__init__` (tree.py line 173):
`[Light(i) for i in range(num_lights)]`. -/
def LEDTree.init (num_lights : ℕ) : LEDTree :=
  { lights := (List.range num_lights).map (fun (i : ℕ) => Light.init (i : ℤ)) }

/-- `num_lights: int = 24`, the default pixel count (tree.py line 170). -/
def num_lights_default : ℕ := 24

/-- The message of the error raised by `LEDTree._get_light` (tree.py
lines 305-307). -/
def LEDTree.out_of_range_msg (t : LEDTree) (light_id : ℤ) : String :=
  "Light ID " ++ toString light_id ++ " is out of range (0-" ++
    toString ((t.lights.length : ℤ) - 1) ++ ")."

/-- `LEDTree._get_light` (tree.py lines 301-307): return the light if
`0 <= light_id < len(self.lights)`, else raise `ValueError` with a
message stating the valid range. -/
def LEDTree.get_light (t : LEDTree) (light_id : ℤ) : Except PyErr Light :=
  if h : 0 ≤ light_id ∧ light_id < (t.lights.length : ℤ) then
    .ok (t.lights.get ⟨light_id.toNat, by omega⟩)
  else
    .error { kind := .valueError, message := t.out_of_range_msg light_id }

/-- `LEDTree.set_light` (tree.py lines 231-233):
`self._get_light(light_id).set_state(color, brightness)`. A raised
exception propagates before any light is mutated, so the tree is
returned unchanged alongside the error. -/
def LEDTree.set_light (t : LEDTree) (light_id : ℤ) (color : RGBf) (brightness : ℚ) :
    LEDTree × Option PyErr :=
  match t.get_light light_id with
  | .error e => (t, some e)
  | .ok l =>
    match l.set_state color brightness with
    | .error e => (t, some e)
    | .ok l' => ({ lights := t.lights.set light_id.toNat l' }, none)

/-- A light with a glow task (id 0) and a hue task (id 1) attached, as
after two effect starts. -/
def demoLightBoth : Light :=
  { id := 0
    state := { red := 0, green := 0, blue := 0, brightness := 1 }
    glow_effect_task := some 0
    hue_effect_task := some 1
    hue_effect_taskk := none }

/-- The loop state matching `demoLightBoth`: ids 0 and 1 handed out,
nothing cancelled. -/
def demoLoopBoth : AsyncioLoop := { nextId := 2, cancelled := [] }

/-- A light with only a hue task (id 5) attached. -/
def demoLightHue : Light :=
  { id := 0
    state := { red := 0, green := 0, blue := 0, brightness := 1 }
    glow_effect_task := none
    hue_effect_task := some 5
    hue_effect_taskk := none }

/-- The loop state matching `demoLightHue`. -/
def demoLoopHue : AsyncioLoop := { nextId := 6, cancelled := [] }

/-- A default 24-light tree's light list. -/
def tree24 : LEDTree := LEDTree.init 24

/-! ## Helper lemmas -/

/-- For a nonnegative rational, Python `int` truncation is the floor. -/
theorem pyInt_eq_floor {q : ℚ} (h : 0 ≤ q) : pyInt q = ⌊q⌋ := by
  unfold pyInt
  rw [if_pos h, Rat.floor_def]

theorem mem_pyRange {a b x : ℤ} : x ∈ pyRange a b ↔ a ≤ x ∧ x < b := by
  unfold pyRange
  simp only [List.mem_map, List.mem_range]
  constructor
  · rintro ⟨i, hi, rfl⟩
    omega
  · intro h
    exact ⟨(x - a).toNat, by omega, by omega⟩

theorem mem_pyRangeDown {a b x : ℤ} : x ∈ pyRangeDown a b ↔ b < x ∧ x ≤ a := by
  unfold pyRangeDown
  simp only [List.mem_map, List.mem_range]
  constructor
  · rintro ⟨i, hi, rfl⟩
    omega
  · intro h
    exact ⟨(a - x).toNat, by omega, by omega⟩

theorem pyRange_pairwise (a b : ℤ) : (pyRange a b).Pairwise (· < ·) := by
  unfold pyRange
  rw [List.pairwise_map]
  exact (List.pairwise_lt_range _).imp (fun h => by omega)

theorem pyRangeDown_pairwise (a b : ℤ) : (pyRangeDown a b).Pairwise (fun x y => y < x) := by
  unfold pyRangeDown
  rw [List.pairwise_map]
  exact (List.pairwise_lt_range _).imp (fun h => by omega)

theorem pyRange_head {a b : ℤ} (h : a < b) : (pyRange a b).head? = some a := by
  unfold pyRange
  rw [List.head?_map, show (b - a).toNat = (b - a - 1).toNat + 1 from by omega,
    List.range_succ_eq_map]
  simp

theorem pyRangeDown_head {a b : ℤ} (h : b < a) : (pyRangeDown a b).head? = some a := by
  unfold pyRangeDown
  rw [List.head?_map, show (a - b).toNat = (a - b - 1).toNat + 1 from by omega,
    List.range_succ_eq_map]
  simp

theorem lor224 {k : ℕ} (h : k < 32) : 224 ||| k = 224 + k := by
  interval_cases k <;> rfl

theorem int_lor224 {z : ℤ} (h0 : 0 ≤ z) (h1 : z ≤ 31) : Int.lor 224 z = 224 + z := by
  obtain ⟨k, rfl⟩ : ∃ k : ℕ, z = (k : ℤ) := ⟨z.toNat, by omega⟩
  have hk : k < 32 := by omega
  calc Int.lor 224 (k : ℤ) = ((224 ||| k : ℕ) : ℤ) := rfl
  _ = ((224 + k : ℕ) : ℤ) := by rw [lor224 hk]
  _ = 224 + (k : ℤ) := by push_cast; ring

theorem pyOrZero_some (v : ℤ) : pyOrZero (some v) = v := by
  by_cases h : v = 0 <;> simp [pyOrZero, h]

/-- The brightness byte of `LEDValue256.from_color_brightness`, for an
in-range brightness: the bitwise or is a plain sum, and the quantized
brightness lies in `[0, 31]`. -/
theorem brightness_byte (b : ℚ) (h0 : 0 ≤ b) (h1 : b ≤ 1) :
    Int.lor 224 (pyInt (b * (MAX_BRIGHTNESS : ℚ))) = 224 + ⌊b * 31⌋ ∧
    0 ≤ ⌊b * 31⌋ ∧ ⌊b * 31⌋ ≤ 31 := by
  have hq : (0 : ℚ) ≤ b * 31 := mul_nonneg h0 (by norm_num)
  have hfl : 0 ≤ ⌊b * 31⌋ := Int.floor_nonneg.mpr hq
  have h31 : b * 31 ≤ 31 := by nlinarith
  have hfl31 : ⌊b * 31⌋ ≤ 31 := by
    have h2 := Int.floor_le_floor (α := ℚ) h31
    have h3 : ⌊(31 : ℚ)⌋ = 31 := by norm_num
    omega
  refine ⟨?_, hfl, hfl31⟩
  rw [show ((MAX_BRIGHTNESS : ℤ) : ℚ) = (31 : ℚ) from by norm_num [MAX_BRIGHTNESS],
    pyInt_eq_floor hq]
  exact int_lor224 hfl hfl31

theorem spi_flatten (snapshot : List ColorBrightness)
    (h : ∀ cb ∈ snapshot, 0 ≤ cb.brightness ∧ cb.brightness ≤ 1) :
    (snapshot.map LEDValue256.from_color_brightness).flatMap
        (fun p => [pyOrZero p.brightness, p.blue, p.green, p.red]) =
      snapshot.flatMap
        (fun cb => [224 + ⌊cb.brightness * 31⌋, cb.blue, cb.green, cb.red]) := by
  induction snapshot with
  | nil => rfl
  | cons cb tl ih =>
    have hcb := h cb (List.mem_cons_self cb tl)
    have hb := brightness_byte cb.brightness hcb.1 hcb.2
    simp only [List.map_cons, List.flatMap_cons]
    rw [ih (fun x hx => h x (List.mem_cons_of_mem _ hx))]
    simp [LEDValue256.from_color_brightness, pyOrZero_some, hb.1]

theorem flatMap_four_length (l : List LEDValue256) :
    (l.flatMap (fun p => [pyOrZero p.brightness, p.blue, p.green, p.red])).length =
      4 * l.length := by
  induction l with
  | nil => rfl
  | cons p tl ih =>
    simp only [List.flatMap_cons, List.length_append, List.length_cons, ih]
    simp
    ring

/-! ## Claim theorems -/

/-- Claim C2 (code_bug evidence): starting a hue effect on a light that
has a glow task (id 0) and a hue task (id 1) attached stores the new
task (id 2) in the glow slot, leaving the hue slot pointing at the old
cancelled task — the source of `start_hue_effect` assigns
`self.glow_effect_task` (tree.py line 118). -/
theorem start_hue_clobbers_glow_slot :
    demoLightBoth.glow_effect_task = some 0 ∧
    demoLightBoth.hue_effect_task = some 1 ∧
    (demoLightBoth.start_hue_effect demoLoopBoth).2.glow_effect_task = some 2 ∧
    (demoLightBoth.start_hue_effect demoLoopBoth).2.hue_effect_task = some 1 ∧
    (demoLightBoth.start_hue_effect demoLoopBoth).1.cancelled = [1] :=
  ⟨rfl, rfl, rfl, rfl, rfl⟩

/-- Claim C6 (code_bug evidence): with `min_brightness = max_brightness
= 0.5` (and likewise with `min > max`), one pass of `Light.glow`'s
`while True` body writes nothing and reaches zero `await` suspension
points, so the loop spins without ever yielding to the event loop. -/
theorem glow_degenerate_no_suspension :
    glowPassWrites (1/2) (1/2) = [] ∧ glowPassAwaitCount (1/2) (1/2) = 0 ∧
    glowPassWrites (4/5) (1/5) = [] ∧ glowPassAwaitCount (4/5) (1/5) = 0 := by
  have e1 : ((1 : ℚ)/2 * 100) = 50 := by norm_num
  have e2 : ((4 : ℚ)/5 * 100) = 80 := by norm_num
  have e3 : ((1 : ℚ)/5 * 100) = 20 := by norm_num
  refine ⟨?_, ?_, ?_, ?_⟩ <;>
    simp only [glowPassWrites, glowPassAwaitCount, glowUps, glowDowns, e1, e2, e3] <;>
    decide

/-- Claim C8 (code_bug evidence): stopping a running hue effect cancels
the task but leaves `hue_effect_task` set to the cancelled task,
because tree.py line 124 assigns `None` to the misspelled attribute
`hue_effect_taskk`; a second call is state-identical to the first but
the handle is never cleared. -/
theorem stop_hue_handle_not_cleared :
    (demoLightHue.stop_hue_effect demoLoopHue).2.hue_effect_task = some 5 ∧
    (demoLightHue.stop_hue_effect demoLoopHue).2.hue_effect_taskk = some none ∧
    (demoLightHue.stop_hue_effect demoLoopHue).1.cancelled = [5] ∧
    ((demoLightHue.stop_hue_effect demoLoopHue).2.stop_hue_effect
        (demoLightHue.stop_hue_effect demoLoopHue).1) =
      demoLightHue.stop_hue_effect demoLoopHue := by
  refine ⟨rfl, rfl, rfl, ?_⟩
  decide

/-- Claim C10 (counterexample): the write performed by a glow tick
(tree.py lines 62 and 68, `self.state.brightness = b`) is an in-place
mutation of the brightness field, not a whole-record replacement. -/
theorem glow_write_is_field_mutation :
    glowTickWriteOp (1/2) = WriteOp.mutateBrightness (1/2) ∧
    WriteOp.isReplace (glowTickWriteOp (1/2)) = false :=
  ⟨rfl, rfl⟩

/-- Claim C10 (amended): hue ticks, `set_state` and `off` write the
state by whole-record replacement, but each glow tick mutates only the
brightness field in place, leaving the color channels untouched. -/
theorem write_shapes :
    (∀ (current : ColorBrightness) (r g b : ℤ),
      (hueTickWriteOp current r g b).isReplace = true) ∧
    (∀ v : ColorBrightness, (setStateWriteOp v).isReplace = true) ∧
    offWriteOp.isReplace = true ∧
    (∀ b : ℚ, glowTickWriteOp b = WriteOp.mutateBrightness b) ∧
    (∀ (b : ℚ) (s : ColorBrightness),
      applyWriteOp (glowTickWriteOp b) s =
        { red := s.red, green := s.green, blue := s.blue, brightness := b }) :=
  ⟨fun _ _ _ _ => rfl, fun _ => rfl, rfl, fun _ => rfl, fun _ _ => rfl⟩

/-- Claim C3 (counterexample): the encoder applies no length check — a
1-pixel snapshot handed to a tree configured with the default 24 lights
is encoded without any error. -/
theorem encoder_accepts_mismatched_snapshot :
    (1 : ℕ) ≠ num_lights_default ∧
    spi_transfer true [{ red := 0, green := 0, blue := 0, brightness := 1 }] =
      .ok [0, 0, 0, 0, 255, 0, 0, 0, 0, 0, 0, 0, 0] := by
  constructor
  · decide
  · have hpy : pyInt ((1 : ℚ) * (MAX_BRIGHTNESS : ℚ)) = 31 := by
      rw [show ((1 : ℚ) * (MAX_BRIGHTNESS : ℚ)) = 31 from by norm_num [MAX_BRIGHTNESS]]
      decide
    have hlor : Int.lor 224 31 = 255 := by decide
    simp only [spi_transfer, spi_transfer_data, List.map_cons, List.map_nil,
      List.flatMap_cons, List.flatMap_nil, LEDValue256.from_color_brightness, hpy, hlor,
      pyOrZero_some]
    rfl

/-- Claim C3 (amended): `spi_transfer` never checks the snapshot length
against the tree's pixel count; with the SPI bus open it succeeds on a
snapshot of any length, producing `4 + 4*len + 5` bytes. -/
theorem spi_transfer_no_length_check (snapshot : List ColorBrightness) :
    spi_transfer true snapshot = .ok (spi_transfer_data snapshot) ∧
    (spi_transfer_data snapshot).length = 9 + 4 * snapshot.length := by
  constructor
  · rfl
  · unfold spi_transfer_data
    simp only [List.length_append, List.length_replicate, flatMap_four_length,
      List.length_map]
    ring

theorem floor_channel_bounds {x : ℚ} (h0 : 0 ≤ x) (h1 : x ≤ 1) :
    0 ≤ ⌊x * 255⌋ ∧ ⌊x * 255⌋ ≤ 255 := by
  constructor
  · exact Int.floor_nonneg.mpr (mul_nonneg h0 (by norm_num))
  · have hx : x * 255 ≤ 255 := by nlinarith
    have h2 := Int.floor_le_floor (α := ℚ) hx
    have h3 : ⌊(255 : ℚ)⌋ = 255 := by norm_num
    omega

/-- Claim C4 (counterexample): at channel value `0.003` the code stores
`int(0.003 * 255) = 0`, while the claimed `round(0.003 * 255)` is `1` —
`from_color` truncates, it does not round. -/
theorem from_color_truncates_not_rounds :
    ColorBrightness.from_color { r := 3/1000, g := 0, b := 0 } (1/2) =
      .ok { red := 0, green := 0, blue := 0, brightness := 1/2 } ∧
    pyRound ((3/1000 : ℚ) * 255) = 1 ∧ (0 : ℤ) ≠ 1 := by
  refine ⟨?_, ?_, by decide⟩
  · norm_num [ColorBrightness.from_color, ColorBrightness.validated, pyInt]
  · norm_num [pyRound]

/-- Claim C4 (amended): for channels in `[0,1]` and brightness in
`[0,1]`, `from_color` converts each channel by truncation
`int(channel*255) = ⌊channel*255⌋` (not rounding; no clamping is
performed or needed, the result already lies in `[0,255]`), and stores
the given brightness unchanged. -/
theorem from_color_spec (c : RGBf) (brightness : ℚ)
    (hr0 : 0 ≤ c.r) (hr1 : c.r ≤ 1) (hg0 : 0 ≤ c.g) (hg1 : c.g ≤ 1)
    (hb0 : 0 ≤ c.b) (hb1 : c.b ≤ 1) (hq0 : 0 ≤ brightness) (hq1 : brightness ≤ 1) :
    ColorBrightness.from_color c brightness =
      .ok { red := ⌊c.r * 255⌋, green := ⌊c.g * 255⌋, blue := ⌊c.b * 255⌋,
            brightness := brightness } ∧
    (0 ≤ ⌊c.r * 255⌋ ∧ ⌊c.r * 255⌋ ≤ 255) ∧
    (0 ≤ ⌊c.g * 255⌋ ∧ ⌊c.g * 255⌋ ≤ 255) ∧
    (0 ≤ ⌊c.b * 255⌋ ∧ ⌊c.b * 255⌋ ≤ 255) := by
  have br := floor_channel_bounds hr0 hr1
  have bg := floor_channel_bounds hg0 hg1
  have bb := floor_channel_bounds hb0 hb1
  refine ⟨?_, br, bg, bb⟩
  have e1 : pyInt (c.r * 255) = ⌊c.r * 255⌋ := pyInt_eq_floor (mul_nonneg hr0 (by norm_num))
  have e2 : pyInt (c.g * 255) = ⌊c.g * 255⌋ := pyInt_eq_floor (mul_nonneg hg0 (by norm_num))
  have e3 : pyInt (c.b * 255) = ⌊c.b * 255⌋ := pyInt_eq_floor (mul_nonneg hb0 (by norm_num))
  unfold ColorBrightness.from_color ColorBrightness.validated
  rw [e1, e2, e3, if_pos ⟨br.1, br.2, bg.1, bg.2, bb.1, bb.2, hq0, hq1⟩]

theorem from_color_spec_witness :
    ((0:ℚ) ≤ 1/2 ∧ (1/2:ℚ) ≤ 1 ∧ (0:ℚ) ≤ 0 ∧ (0:ℚ) ≤ 1 ∧ (0:ℚ) ≤ 1 ∧ (1:ℚ) ≤ 1) ∧
    (ColorBrightness.from_color { r := 1/2, g := 0, b := 1 } (1/2) =
        .ok { red := ⌊(1/2 : ℚ) * 255⌋, green := ⌊(0 : ℚ) * 255⌋,
              blue := ⌊(1 : ℚ) * 255⌋, brightness := 1/2 } ∧
      (0 ≤ ⌊(1/2 : ℚ) * 255⌋ ∧ ⌊(1/2 : ℚ) * 255⌋ ≤ 255) ∧
      (0 ≤ ⌊(0 : ℚ) * 255⌋ ∧ ⌊(0 : ℚ) * 255⌋ ≤ 255) ∧
      (0 ≤ ⌊(1 : ℚ) * 255⌋ ∧ ⌊(1 : ℚ) * 255⌋ ≤ 255)) :=
  ⟨by norm_num,
   from_color_spec { r := 1/2, g := 0, b := 1 } (1/2) (by norm_num) (by norm_num)
     (by norm_num) (by norm_num) (by norm_num) (by norm_num) (by norm_num) (by norm_num)⟩

/-- Claim C5 (counterexample): `set_light` with the out-of-range id 24
on the default 24-light tree raises `ValueError` (tree.py line 305),
not the builtin `IndexError` the claim names. -/
theorem set_light_value_error_not_index_error :
    ((tree24.set_light 24 { r := 0, g := 0, b := 0 } (1/2)).2.map PyErr.kind =
        some PyErrKind.valueError) ∧
    PyErrKind.valueError ≠ PyErrKind.indexError := by
  constructor
  · rfl
  · decide

/-- Claim C5 (amended): for every out-of-range `light_id`, `set_light`
fails with a `ValueError` whose message identifies the valid range
`0 … len(lights)-1`, and the tree state is unchanged by the failed
call (the exception is raised by `_get_light` before any mutation). -/
theorem set_light_out_of_range (t : LEDTree) (light_id : ℤ) (color : RGBf) (brightness : ℚ)
    (h : ¬(0 ≤ light_id ∧ light_id < (t.lights.length : ℤ))) :
    t.set_light light_id color brightness =
      (t, some { kind := PyErrKind.valueError, message := t.out_of_range_msg light_id }) := by
  unfold LEDTree.set_light LEDTree.get_light
  rw [dif_neg h]

theorem set_light_out_of_range_witness :
    ¬((0:ℤ) ≤ 24 ∧ (24:ℤ) < (tree24.lights.length : ℤ)) ∧
    tree24.set_light 24 { r := 0, g := 0, b := 0 } (1/2) =
      (tree24, some { kind := PyErrKind.valueError, message := tree24.out_of_range_msg 24 }) :=
  ⟨by decide,
   set_light_out_of_range tree24 24 { r := 0, g := 0, b := 0 } (1/2) (by decide)⟩

/-- Claim C9 (confirmed): whenever a hue tick produces a new state
record, its brightness equals the brightness of the state it read —
the hue effect writes only the color channels (tree.py lines 96-101). -/
theorem hue_preserves_brightness (current : ColorBrightness)
    (start_color end_color : ℤ × ℤ × ℤ) (step : ℕ) (next : ColorBrightness)
    (h : hueTick current start_color end_color step = .ok next) :
    next.brightness = current.brightness := by
  unfold hueTick ColorBrightness.validated at h
  split_ifs at h
  injection h with h2
  rw [← h2]

theorem hue_preserves_brightness_witness :
    hueTick { red := 0, green := 0, blue := 0, brightness := 1/2 } (0, 0, 0) (255, 0, 0) 50 =
      .ok { red := 127, green := 0, blue := 0, brightness := 1/2 } ∧
    ({ red := 127, green := 0, blue := 0, brightness := 1/2 } : ColorBrightness).brightness =
      ({ red := 0, green := 0, blue := 0, brightness := 1/2 } : ColorBrightness).brightness := by
  have h : hueTick { red := 0, green := 0, blue := 0, brightness := 1/2 }
      (0, 0, 0) (255, 0, 0) 50 =
      .ok { red := 127, green := 0, blue := 0, brightness := 1/2 } := by
    norm_num [hueTick, hueChannel, ColorBrightness.validated, pyInt]
  exact ⟨h, hue_preserves_brightness _ _ _ _ _ h⟩

/-- Claim C1 (confirmed): for a snapshot of in-range brightness values,
the encoder emits exactly `[0,0,0,0]`, then for each pixel in order the
four bytes `[0b11100000 ||| ⌊brightness*31⌋, blue, green, red]` (the or
is the plain sum `224 + ⌊brightness*31⌋`), then `[0,0,0,0,0]`; each
brightness byte has its low 5 bits equal to `⌊brightness*31⌋` and its
top 3 bits set (`byte / 32 = 7`). -/
theorem frame_encoder_bytes (snapshot : List ColorBrightness)
    (h : ∀ cb ∈ snapshot, 0 ≤ cb.brightness ∧ cb.brightness ≤ 1) :
    spi_transfer_data snapshot =
      [0, 0, 0, 0] ++
        snapshot.flatMap
          (fun cb => [224 + ⌊cb.brightness * 31⌋, cb.blue, cb.green, cb.red]) ++
      [0, 0, 0, 0, 0] ∧
    ∀ cb ∈ snapshot,
      (224 + ⌊cb.brightness * 31⌋).toNat % 32 = ⌊cb.brightness * 31⌋.toNat ∧
      (224 + ⌊cb.brightness * 31⌋).toNat / 32 = 7 := by
  constructor
  · simp only [spi_transfer_data]
    rw [spi_flatten snapshot h]
    rfl
  · intro cb hcb
    obtain ⟨hb1, hb2⟩ := (brightness_byte cb.brightness (h cb hcb).1 (h cb hcb).2).2
    constructor
    · omega
    · omega

theorem frame_encoder_bytes_witness :
    (∀ cb ∈ [({ red := 255, green := 0, blue := 0, brightness := 1 } : ColorBrightness)],
        0 ≤ cb.brightness ∧ cb.brightness ≤ 1) ∧
    (spi_transfer_data [{ red := 255, green := 0, blue := 0, brightness := 1 }] =
        [0, 0, 0, 0] ++
          [({ red := 255, green := 0, blue := 0, brightness := 1 } : ColorBrightness)].flatMap
            (fun cb => [224 + ⌊cb.brightness * 31⌋, cb.blue, cb.green, cb.red]) ++
        [0, 0, 0, 0, 0] ∧
      ∀ cb ∈ [({ red := 255, green := 0, blue := 0, brightness := 1 } : ColorBrightness)],
        (224 + ⌊cb.brightness * 31⌋).toNat % 32 = ⌊cb.brightness * 31⌋.toNat ∧
        (224 + ⌊cb.brightness * 31⌋).toNat / 32 = 7) :=
  ⟨by norm_num, frame_encoder_bytes _ (by norm_num)⟩

/-- Claim C7 (confirmed): for a glow run with
`min_brightness < max_brightness` in `[0,1]`, every written brightness
lies within one step (1/100) of the `[min,max]` band; the ascending
half is strictly increasing and the descending half strictly
decreasing; the sequence keeps rising across the seam into the first
descending value, so direction reverses only at the top value (within
one step of `max_brightness`) and at the first ascending value of the
next pass (within one step of, and not above, `min_brightness`). -/
theorem glow_brightness_invariant (min_brightness max_brightness : ℚ)
    (h0 : 0 ≤ min_brightness) (h1 : min_brightness < max_brightness)
    (h2 : max_brightness ≤ 1) :
    (∀ b ∈ glowPassWrites min_brightness max_brightness,
        min_brightness - 1/100 ≤ b ∧ b ≤ max_brightness + 1/100) ∧
    (glowUps min_brightness max_brightness).Pairwise (· < ·) ∧
    (glowDowns min_brightness max_brightness).Pairwise (fun x y => y < x) ∧
    (∀ u ∈ glowUps min_brightness max_brightness,
        ∀ d ∈ (glowDowns min_brightness max_brightness).head?, u < d) ∧
    (∀ d ∈ (glowDowns min_brightness max_brightness).head?,
        max_brightness - 1/100 ≤ d ∧ d ≤ max_brightness) ∧
    (∀ u ∈ (glowUps min_brightness max_brightness).head?,
        min_brightness - 1/100 ≤ u ∧ u ≤ min_brightness) := by
  have hmin0 : (0:ℚ) ≤ min_brightness * 100 := mul_nonneg h0 (by norm_num)
  have hmax0 : (0:ℚ) ≤ max_brightness * 100 :=
    mul_nonneg (le_of_lt (lt_of_le_of_lt h0 h1)) (by norm_num)
  set m : ℤ := pyInt (min_brightness * 100) with hm
  set M : ℤ := pyInt (max_brightness * 100) with hM
  have q1 : (m:ℚ) ≤ min_brightness * 100 := by
    rw [hm, pyInt_eq_floor hmin0]
    exact Int.floor_le _
  have q2 : min_brightness * 100 < (m:ℚ) + 1 := by
    rw [hm, pyInt_eq_floor hmin0]
    exact Int.lt_floor_add_one _
  have q3 : (M:ℚ) ≤ max_brightness * 100 := by
    rw [hM, pyInt_eq_floor hmax0]
    exact Int.floor_le _
  have q4 : max_brightness * 100 < (M:ℚ) + 1 := by
    rw [hM, pyInt_eq_floor hmax0]
    exact Int.lt_floor_add_one _
  have hmM : m ≤ M := by
    rw [hm, hM, pyInt_eq_floor hmin0, pyInt_eq_floor hmax0]
    exact Int.floor_le_floor (by nlinarith)
  refine ⟨?_, ?_, ?_, ?_, ?_, ?_⟩
  · intro b hb
    simp only [glowPassWrites, glowUps, glowDowns, ← hm, ← hM, List.mem_append,
      List.mem_map] at hb
    rcases hb with ⟨x, hx, rfl⟩ | ⟨x, hx, rfl⟩
    · rw [mem_pyRange] at hx
      have c1 : (m:ℚ) ≤ (x:ℚ) := by exact_mod_cast hx.1
      have c2 : (x:ℚ) < (M:ℚ) := by exact_mod_cast hx.2
      constructor <;> linarith
    · rw [mem_pyRangeDown] at hx
      have c1 : (m:ℚ) < (x:ℚ) := by exact_mod_cast hx.1
      have c2 : (x:ℚ) ≤ (M:ℚ) := by exact_mod_cast hx.2
      constructor <;> linarith
  · simp only [glowUps, ← hm, ← hM]
    rw [List.pairwise_map]
    exact (pyRange_pairwise _ _).imp (fun {x y} hxy => by
      have hc : (x:ℚ) < (y:ℚ) := by exact_mod_cast hxy
      linarith)
  · simp only [glowDowns, ← hm, ← hM]
    rw [List.pairwise_map]
    exact (pyRangeDown_pairwise _ _).imp (fun {x y} hxy => by
      have hc : (y:ℚ) < (x:ℚ) := by exact_mod_cast hxy
      linarith)
  · intro u hu d hd
    by_cases hlt : m < M
    · have hd' : (glowDowns min_brightness max_brightness).head? = some ((M:ℚ)/100) := by
        simp only [glowDowns, ← hm, ← hM]
        rw [List.head?_map, pyRangeDown_head hlt]
        rfl
      rw [hd'] at hd
      simp only [Option.mem_def, Option.some.injEq] at hd
      subst hd
      simp only [glowUps, ← hm, ← hM, List.mem_map] at hu
      obtain ⟨x, hx, rfl⟩ := hu
      rw [mem_pyRange] at hx
      have c2 : (x:ℚ) < (M:ℚ) := by exact_mod_cast hx.2
      linarith
    · have hempty : (glowDowns min_brightness max_brightness).head? = none := by
        simp only [glowDowns, ← hm, ← hM]
        rw [List.head?_map, show pyRangeDown M m = [] from by
          unfold pyRangeDown
          rw [show (M - m).toNat = 0 from by omega]
          rfl]
        rfl
      rw [hempty] at hd
      exact absurd hd (by simp)
  · intro d hd
    by_cases hlt : m < M
    · have hd' : (glowDowns min_brightness max_brightness).head? = some ((M:ℚ)/100) := by
        simp only [glowDowns, ← hm, ← hM]
        rw [List.head?_map, pyRangeDown_head hlt]
        rfl
      rw [hd'] at hd
      simp only [Option.mem_def, Option.some.injEq] at hd
      subst hd
      constructor <;> linarith
    · have hempty : (glowDowns min_brightness max_brightness).head? = none := by
        simp only [glowDowns, ← hm, ← hM]
        rw [List.head?_map, show pyRangeDown M m = [] from by
          unfold pyRangeDown
          rw [show (M - m).toNat = 0 from by omega]
          rfl]
        rfl
      rw [hempty] at hd
      exact absurd hd (by simp)
  · intro u hu
    by_cases hlt : m < M
    · have hu' : (glowUps min_brightness max_brightness).head? = some ((m:ℚ)/100) := by
        simp only [glowUps, ← hm, ← hM]
        rw [List.head?_map, pyRange_head hlt]
        rfl
      rw [hu'] at hu
      simp only [Option.mem_def, Option.some.injEq] at hu
      subst hu
      constructor <;> linarith
    · have hempty : (glowUps min_brightness max_brightness).head? = none := by
        simp only [glowUps, ← hm, ← hM]
        rw [List.head?_map, show pyRange m M = [] from by
          unfold pyRange
          rw [show (M - m).toNat = 0 from by omega]
          rfl]
        rfl
      rw [hempty] at hu
      exact absurd hu (by simp)

theorem glow_brightness_invariant_witness :
    ((0:ℚ) ≤ 0 ∧ (0:ℚ) < 1 ∧ (1:ℚ) ≤ 1) ∧
    ((∀ b ∈ glowPassWrites 0 1, (0:ℚ) - 1/100 ≤ b ∧ b ≤ 1 + 1/100) ∧
     (glowUps 0 1).Pairwise (· < ·) ∧
     (glowDowns 0 1).Pairwise (fun x y => y < x) ∧
     (∀ u ∈ glowUps 0 1, ∀ d ∈ (glowDowns 0 1).head?, u < d) ∧
     (∀ d ∈ (glowDowns 0 1).head?, (1:ℚ) - 1/100 ≤ d ∧ d ≤ 1) ∧
     (∀ u ∈ (glowUps 0 1).head?, (0:ℚ) - 1/100 ≤ u ∧ u ≤ 0)) :=
  ⟨⟨le_refl 0, by norm_num, le_refl 1⟩,
   glow_brightness_invariant 0 1 (le_refl 0) (by norm_num) (le_refl 1)⟩
